import Mathlib

/-!
Verification development for the kleinanzeigen_bot repository.

The repository contains three bot implementations sharing one design:
a simple single-search bot (src/database.py, src/main.py), a multi-search
bot kept as a backup (src/_old_bot_backup/database.py, src/_old_bot_backup/main.py),
and a DDR5-RAM specialised bot (src/src/models.py, src/src/parser.py,
src/src/utils.py, src/src/main.py).  The definitions below are shallow
embeddings of the Python functions those files define; SQLite tables are
modelled as lists of row structures, `datetime.now()` as an explicit integer
parameter (minutes), Python floats as rationals, and the storage layer that
may raise `sqlite3.Error` as an `Except` value.  Case mapping is ASCII
(`Char.toLower`/`Char.toUpper`), which agrees with Python on every character
the embedded keyword tables use.
-/

/-- Python `needle in hay` on lists of characters: `needle` occurs as a
contiguous sublist of `hay`. -/
def containsSub (needle : List Char) : List Char → Bool
  | [] => needle.isEmpty
  | c :: t => needle.isPrefixOf (c :: t) || containsSub needle t

/-- Python `needle in hay` on strings. -/
def strContains (hay needle : String) : Bool :=
  containsSub needle.data hay.data

/-- Python `s.lower()` (ASCII case mapping). -/
def pyLower (s : String) : String := String.mk (s.data.map Char.toLower)

/-- Python `s.upper()` (ASCII case mapping). -/
def pyUpper (s : String) : String := String.mk (s.data.map Char.toUpper)

/-- Drop leading whitespace from a character list. -/
def dropLeadingWs : List Char → List Char
  | [] => []
  | c :: t => if c.isWhitespace then dropLeadingWs t else c :: t

/-- Python `s.strip()`: drop leading and trailing whitespace. -/
def pyStrip (s : String) : String :=
  String.mk ((dropLeadingWs (dropLeadingWs s.data).reverse).reverse)

/-- A storage-layer failure (`sqlite3.Error`). -/
inductive DbError
  | sqliteError
deriving Repr, DecidableEq

namespace Database

/-! Embedding of `src/database.py` (class `Database`).  The `seen_ads` table
(`ad_id TEXT PRIMARY KEY, title TEXT NOT NULL, price REAL, link TEXT,
location TEXT, posted_time TEXT, fetched_at TIMESTAMP`) is a list of rows;
the primary key makes `ad_id` unique, which `INSERT OR REPLACE` maintains. -/

structure SeenRow where
  ad_id : String
  title : String
  price : Option ℚ
  link : Option String
  location : Option String
  posted_time : Option String
  fetched_at : ℤ
deriving Repr, DecidableEq

/-- The query `SELECT 1 FROM seen_ads WHERE ad_id = ?` followed by
`fetchone()`: the first row with the given id, if any. -/
def selectByAdId (rows : List SeenRow) (adId : String) : Option SeenRow :=
  rows.find? (fun r => r.ad_id == adId)

/-- `Database.is_new_ad` (src/database.py lines 79-99).  The probe runs inside
`try/except sqlite3.Error`; a failing probe returns `True` ("bei Fehler als
neu behandeln"), a successful one returns whether `fetchone()` was `None`. -/
def is_new_ad (probe : Except DbError (List SeenRow)) (adId : String) : Bool :=
  match probe with
  | .error _ => true
  | .ok rows => (selectByAdId rows adId).isNone

/-- `Database.mark_as_seen` (src/database.py lines 101-126), success path:
`INSERT OR REPLACE INTO seen_ads` deletes any row conflicting on the
`ad_id` primary key and inserts the new row. -/
def mark_as_seen (rows : List SeenRow) (adId title : String) (price : Option ℚ)
    (link location posted_time : Option String) (now : ℤ) : List SeenRow :=
  (rows.filter (fun r => r.ad_id ≠ adId)) ++
    [⟨adId, title, price, link, location, posted_time, now⟩]

end Database

namespace Bot

/-! Embedding of `src/main.py` (class `KleinanzeigenBot`): the ad records the
scraper hands over are dicts; the keys `_filter_ads` and `_get_new_ads` read
are modelled as fields, optional exactly where the code supplies a `get`
default or passes the raw lookup on. -/

structure Ad where
  id : Option String
  title : Option String
  price : Option ℚ
  link : Option String
  location : Option String
  posted_time : Option String
  is_gesuch : Bool
deriving Repr, DecidableEq

/-- The price test of `_filter_ads` (src/main.py lines 168-174): an ad is
dropped when its price is present and below `price_min` or above
`price_max`; an absent price never triggers this test. -/
def priceExcluded (priceMin priceMax : Option ℚ) (price : Option ℚ) : Bool :=
  match price with
  | none => false
  | some p =>
    (match priceMin with
     | some m => decide (p < m)
     | none => false) ||
    (match priceMax with
     | some m => decide (m < p)
     | none => false)

/-- The keyword test of `_filter_ads` (src/main.py lines 181-192): the ad is
dropped when any exclude keyword occurs, case-insensitively, in the title. -/
def keywordExcluded (excludeKeywords : List String) (title : String) : Bool :=
  excludeKeywords.any (fun kw => strContains (pyLower title) (pyLower kw))

/-- `KleinanzeigenBot._filter_ads` (src/main.py lines 154-196): one pass over
the ads, dropping an ad (`continue`) at the first failing check — price
bounds, then `is_gesuch`, then exclude keywords. -/
def filterAds (priceMin priceMax : Option ℚ) (excludeKeywords : List String) :
    List Ad → List Ad
  | [] => []
  | ad :: rest =>
    if priceExcluded priceMin priceMax ad.price then
      filterAds priceMin priceMax excludeKeywords rest
    else if ad.is_gesuch then
      filterAds priceMin priceMax excludeKeywords rest
    else if keywordExcluded excludeKeywords (ad.title.getD "") then
      filterAds priceMin priceMax excludeKeywords rest
    else
      ad :: filterAds priceMin priceMax excludeKeywords rest

/-- Python truthiness of `ad.get("id")`: `if not ad_id: continue` skips both a
missing and an empty id. -/
def idTruthy (ad : Ad) : Bool :=
  match ad.id with
  | none => false
  | some s => !s.data.isEmpty

/-- `KleinanzeigenBot._get_new_ads` (src/main.py lines 198-227), on a
failure-free store: each ad with a truthy id is probed with `is_new_ad`; a
new ad is appended to the result and immediately recorded with
`mark_as_seen`.  Returns the new ads and the updated store. -/
def getNewAds (now : ℤ) (rows : List Database.SeenRow) :
    List Ad → List Ad × List Database.SeenRow
  | [] => ([], rows)
  | ad :: rest =>
    if idTruthy ad then
      let adId := ad.id.getD ""
      if Database.is_new_ad (.ok rows) adId then
        let rows' := Database.mark_as_seen rows adId (ad.title.getD "")
          ad.price ad.link ad.location ad.posted_time now
        let res := getNewAds now rows' rest
        (ad :: res.1, res.2)
      else
        getNewAds now rows rest
    else
      getNewAds now rows rest

end Bot

namespace OldDatabase

/-! Embedding of `src/_old_bot_backup/database.py` (class `Database`,
"Multi-Search fähig").  Schema (lines 16-63): table `searches` keyed by
`search_id` with an owning `user_id`, and table `seen_ads` with
`ad_id TEXT PRIMARY KEY` and a `search_id` column referencing `searches`. -/

structure GeizhalsData where
  price : Option ℚ
  article_nr : Option String
  model : Option String
  link : Option String
deriving Repr, DecidableEq

structure OldSeenRow where
  ad_id : String
  search_id : Option ℤ
  title : String
  price : Option ℚ
  link : Option String
  location : Option String
  shipping_type : Option String
  posted_time : Option String
  ocr_article_nr : Option String
  ocr_confidence : Option ℚ
  geizhals_price : Option ℚ
  geizhals_article_nr : Option String
  geizhals_model : Option String
  geizhals_link : Option String
  fetched_at : ℤ
deriving Repr, DecidableEq

structure Search where
  search_id : ℤ
  user_id : String
  keyword : String
  category : String
  price_min : Option ℚ
  price_max : Option ℚ
  interval_seconds : ℤ
  shipping_preference : String
  exclude_keywords : Option String
  active : Bool
deriving Repr, DecidableEq

/-- The persisted state the multi-search methods touch: the `searches` table
and the `seen_ads` table. -/
structure State where
  searches : List Search
  seen_ads : List OldSeenRow
deriving Repr, DecidableEq

/-- `Database.is_new_ad` (src/_old_bot_backup/database.py lines 102-122):
identical to the single-search version — the probe is
`SELECT 1 FROM seen_ads WHERE ad_id = ?` with no search scope, fail-open on
a storage error. -/
def is_new_ad (probe : Except DbError (List OldSeenRow)) (adId : String) : Bool :=
  match probe with
  | .error _ => true
  | .ok rows => (rows.find? (fun r => r.ad_id == adId)).isNone

/-- `Database.mark_as_seen_with_search` (src/_old_bot_backup/database.py
lines 666-734), success path: `INSERT OR REPLACE INTO seen_ads` keyed on the
`ad_id` primary key alone, storing the search id merely as a column. -/
def mark_as_seen_with_search (rows : List OldSeenRow) (adId : String)
    (searchId : ℤ) (title : String) (price : Option ℚ)
    (link location shipping_type posted_time ocr_article_nr : Option String)
    (geizhals_data : Option GeizhalsData) (now : ℤ) : List OldSeenRow :=
  let gp := match geizhals_data with | some g => g.price | none => none
  let ga := match geizhals_data with | some g => g.article_nr | none => none
  let gm := match geizhals_data with | some g => g.model | none => none
  let gl := match geizhals_data with | some g => g.link | none => none
  (rows.filter (fun r => r.ad_id ≠ adId)) ++
    [⟨adId, some searchId, title, price, link, location, shipping_type,
      posted_time, ocr_article_nr, none, gp, ga, gm, gl, now⟩]

/-- `Database.delete_search` (src/_old_bot_backup/database.py lines 570-603),
success path.  The method first runs
`DELETE FROM seen_ads WHERE search_id = ?` with no ownership condition, then
`DELETE FROM searches WHERE search_id = ? AND user_id = ?`, commits both, and
returns whether the second delete removed a row. -/
def delete_search (st : State) (searchId : ℤ) (userId : String) :
    Bool × State :=
  let seen' := st.seen_ads.filter (fun r => r.search_id ≠ some searchId)
  let rowcount :=
    st.searches.countP (fun s => s.search_id == searchId && s.user_id == userId)
  let searches' :=
    st.searches.filter (fun s => !(s.search_id == searchId && s.user_id == userId))
  (decide (0 < rowcount), ⟨searches', seen'⟩)

end OldDatabase

namespace OldBot

/-! Embedding of `src/_old_bot_backup/main.py` (class `KleinanzeigenBot`):
per-search filtering and dedup.  The ad dicts additionally carry the
`shipping_type` hint. -/

structure Ad where
  id : Option String
  title : Option String
  price : Option ℚ
  link : Option String
  location : Option String
  shipping_type : Option String
  posted_time : Option String
  is_gesuch : Bool
deriving Repr, DecidableEq

/-- The shipping-preference test of the old `_filter_ads`
(src/_old_bot_backup/main.py lines 245-251): only enforced when the
preference is not "both"; "pickup" requires "Abholung" in the shipping
hint, "shipping" requires "Versand". -/
def shippingExcluded (shippingPref shipping_type : String) : Bool :=
  if shippingPref == "both" then false
  else
    (shippingPref == "pickup" && !(strContains shipping_type "Abholung")) ||
    (shippingPref == "shipping" && !(strContains shipping_type "Versand"))

/-- `KleinanzeigenBot._filter_ads` (src/_old_bot_backup/main.py lines
213-255): the same price, request and keyword checks as the single-search
bot, followed by the shipping-preference check. -/
def filterAds (priceMin priceMax : Option ℚ) (excludeKeywords : List String)
    (shippingPref : String) : List Ad → List Ad
  | [] => []
  | ad :: rest =>
    if Bot.priceExcluded priceMin priceMax ad.price then
      filterAds priceMin priceMax excludeKeywords shippingPref rest
    else if ad.is_gesuch then
      filterAds priceMin priceMax excludeKeywords shippingPref rest
    else if Bot.keywordExcluded excludeKeywords (ad.title.getD "") then
      filterAds priceMin priceMax excludeKeywords shippingPref rest
    else if shippingExcluded shippingPref (ad.shipping_type.getD "") then
      filterAds priceMin priceMax excludeKeywords shippingPref rest
    else
      ad :: filterAds priceMin priceMax excludeKeywords shippingPref rest

/-- Python truthiness of `ad.get("id")` in the old `_get_new_ads`. -/
def idTruthy (ad : Ad) : Bool :=
  match ad.id with
  | none => false
  | some s => !s.data.isEmpty

/-- `KleinanzeigenBot._get_new_ads` (src/_old_bot_backup/main.py lines
257-281), on a failure-free store: like the single-search version but
recording through `mark_as_seen_with_search` under the given search id. -/
def getNewAds (now searchId : ℤ) (rows : List OldDatabase.OldSeenRow) :
    List Ad → List Ad × List OldDatabase.OldSeenRow
  | [] => ([], rows)
  | ad :: rest =>
    if idTruthy ad then
      let adId := ad.id.getD ""
      if OldDatabase.is_new_ad (.ok rows) adId then
        let rows' := OldDatabase.mark_as_seen_with_search rows adId searchId
          (ad.title.getD "") ad.price ad.link ad.location ad.shipping_type
          ad.posted_time none none now
        let res := getNewAds now searchId rows' rest
        (ad :: res.1, res.2)
      else
        getNewAds now searchId rows rest
    else
      getNewAds now searchId rows rest

end OldBot

/-- A concrete search owned by user "alice". -/
def c2Search : OldDatabase.Search :=
  ⟨1, "alice", "ddr5", "c225", none, none, 300, "both", none, true⟩

/-- A concrete seen-ads row recorded under search 1. -/
def c2Row : OldDatabase.OldSeenRow :=
  ⟨"x", some 1, "RAM", none, none, none, none, none, none, none, none, none,
    none, none, 0⟩

/-- A concrete store: one search owned by "alice", one seen row scoped to it. -/
def c2State : OldDatabase.State := ⟨[c2Search], [c2Row]⟩

/-- A concrete ad with an in-bounds price and no request flag. -/
def c6Ad : Bot.Ad := ⟨some "a1", some "ram kit", some 10, none, none, none, false⟩

/-- A concrete request ad (`is_gesuch = true`). -/
def c7Ad : Bot.Ad := ⟨some "g1", some "suche ram", none, none, none, none, true⟩

/-- A concrete old-bot ad with price exactly at the upper bound. -/
def c6OldAd : OldBot.Ad :=
  ⟨some "a2", some "ram kit", some 20, none, none, none, none, false⟩

/-- A concrete old-bot request ad. -/
def c7OldAd : OldBot.Ad :=
  ⟨some "g2", some "suche ram", none, none, none, none, none, true⟩

namespace RAMParser

/-! Embedding of `src/src/parser.py`, `src/src/models.py` and
`src/src/utils.py` (the DDR5 bot).  The regular expressions those modules
use are built from literals, `\w+`, `\d+`, `\d*`, `\d\x7bm,n\x7d`, `\s*`,
`\s+`, an optional literal and an alternation of literals; `RTok` covers
exactly these shapes, and `matchPat`/`reSearch` give them Python `re.search`
semantics — leftmost starting position, greedy quantifiers with
backtracking, alternatives tried left to right, `re.IGNORECASE`
throughout (every embedded pattern is searched case-insensitively, as the
source either passes the flag or pre-lowers the text). -/

inductive RTok where
  | lit : String → RTok
  | litAlt : List String → RTok
  | optLit : String → RTok
  | digitPlus : RTok
  | digitStar : RTok
  | digitRange : Nat → Nat → RTok
  | wordPlus : RTok
  | wsStar : RTok
  | wsPlus : RTok
deriving Repr, DecidableEq

/-- Python `\w` (ASCII): letters, digits, underscore. -/
def isWordChar (c : Char) : Bool := c.isAlphanum || c == '_'

/-- Case-insensitive literal match at the head of the input. -/
def litMatchesAt : List Char → List Char → Bool
  | [], _ => true
  | _ :: _, [] => false
  | a :: s, c :: cs => (a.toLower == c.toLower) && litMatchesAt s cs

/-- Length of the longest run of characters satisfying `p` at the head. -/
def countLeading (p : Char → Bool) : List Char → Nat
  | [] => 0
  | c :: cs => if p c then countLeading p cs + 1 else 0

/-- Try `f` at `hi, hi - 1, ..., lo` and keep the first success: the greedy
(longest-first) backtracking order of a bounded quantifier. -/
def tryDown (f : Nat → Option α) (lo : Nat) : Nat → Option α
  | 0 => if lo = 0 then f 0 else none
  | n + 1 =>
    if n + 1 < lo then none
    else
      match f (n + 1) with
      | some r => some r
      | none => tryDown f lo n

/-- Match a token pattern at the head of the input, with enough fuel
(`pattern.length` suffices, one unit per token).  Returns the consumed
characters (`group(0)`) and the characters consumed by tokens flagged as
part of the first capture group (`group(1)`). -/
def matchPat : Nat → List (RTok × Bool) → List Char → Option (List Char × List Char)
  | _, [], _ => some ([], [])
  | 0, _ :: _, _ => none
  | fuel + 1, (tok, g) :: rest, cs =>
    match tok with
    | .lit s =>
      if litMatchesAt s.data cs then
        (matchPat fuel rest (cs.drop s.data.length)).map
          (fun r => (cs.take s.data.length ++ r.1,
            (if g then cs.take s.data.length else []) ++ r.2))
      else none
    | .litAlt ss =>
      ss.foldl
        (fun acc s =>
          match acc with
          | some r => some r
          | none =>
            if litMatchesAt s.data cs then
              (matchPat fuel rest (cs.drop s.data.length)).map
                (fun r => (cs.take s.data.length ++ r.1,
                  (if g then cs.take s.data.length else []) ++ r.2))
            else none)
        none
    | .optLit s =>
      match (if litMatchesAt s.data cs then
          (matchPat fuel rest (cs.drop s.data.length)).map
            (fun r => (cs.take s.data.length ++ r.1,
              (if g then cs.take s.data.length else []) ++ r.2))
        else none) with
      | some r => some r
      | none => matchPat fuel rest cs
    | .digitPlus =>
      tryDown
        (fun j => (matchPat fuel rest (cs.drop j)).map
          (fun r => (cs.take j ++ r.1, (if g then cs.take j else []) ++ r.2)))
        1 (countLeading Char.isDigit cs)
    | .digitStar =>
      tryDown
        (fun j => (matchPat fuel rest (cs.drop j)).map
          (fun r => (cs.take j ++ r.1, (if g then cs.take j else []) ++ r.2)))
        0 (countLeading Char.isDigit cs)
    | .digitRange lo hi =>
      tryDown
        (fun j => (matchPat fuel rest (cs.drop j)).map
          (fun r => (cs.take j ++ r.1, (if g then cs.take j else []) ++ r.2)))
        lo (min hi (countLeading Char.isDigit cs))
    | .wordPlus =>
      tryDown
        (fun j => (matchPat fuel rest (cs.drop j)).map
          (fun r => (cs.take j ++ r.1, (if g then cs.take j else []) ++ r.2)))
        1 (countLeading isWordChar cs)
    | .wsStar =>
      tryDown
        (fun j => (matchPat fuel rest (cs.drop j)).map
          (fun r => (cs.take j ++ r.1, (if g then cs.take j else []) ++ r.2)))
        0 (countLeading Char.isWhitespace cs)
    | .wsPlus =>
      tryDown
        (fun j => (matchPat fuel rest (cs.drop j)).map
          (fun r => (cs.take j ++ r.1, (if g then cs.take j else []) ++ r.2)))
        1 (countLeading Char.isWhitespace cs)

/-- Python `re.search`: try the pattern at each starting position from the
left and keep the first match. -/
def reSearch (pat : List (RTok × Bool)) : List Char → Option (List Char × List Char)
  | [] => matchPat pat.length pat []
  | c :: t =>
    match matchPat pat.length pat (c :: t) with
    | some r => some r
    | none => reSearch pat t

/-- The common model-number pattern shape `LITERAL\w+`. -/
def litWordPat (s : String) : List (RTok × Bool) :=
  [(.lit s, false), (.wordPlus, false)]

/-- `MODEL_PATTERNS` (src/src/parser.py lines 16-53), in the source's
insertion order, each regex translated token by token. -/
def MODEL_PATTERNS : List (String × List (List (RTok × Bool))) :=
  [("Corsair", [litWordPat "CMK", litWordPat "CMT", litWordPat "CMH",
    litWordPat "CMR", litWordPat "CMW"]),
   ("G.Skill", [[(.lit "F5-", false), (.digitPlus, false), (.wordPlus, false)],
    litWordPat "F5",
    [(.lit "F4-", false), (.digitPlus, false), (.wordPlus, false)]]),
   ("Kingston", [litWordPat "KF", litWordPat "KVR", litWordPat "KF"]),
   ("Crucial", [litWordPat "CT", litWordPat "BL"]),
   ("TeamGroup", [[(.lit "TF", false), (.digitPlus, false), (.lit "D", false),
      (.wordPlus, false)], litWordPat "TF"]),
   ("Patriot", [litWordPat "PV", litWordPat "PVB"]),
   ("ADATA", [litWordPat "AX5U", litWordPat "AD5U"]),
   ("Corsair Vengeance", [[(.lit "CMK", false), (.digitPlus, false),
      (.lit "GX5M", false), (.digitPlus, false), (.wordPlus, false)]])]

/-- `MANUFACTURER_KEYWORDS` (src/src/parser.py lines 56-67). -/
def MANUFACTURER_KEYWORDS : List (String × List String) :=
  [("Corsair", ["corsair"]),
   ("G.Skill", ["g.skill", "gskill", "g skill"]),
   ("Kingston", ["kingston"]),
   ("Crucial", ["crucial"]),
   ("TeamGroup", ["teamgroup", "team group"]),
   ("Patriot", ["patriot"]),
   ("ADATA", ["adata"]),
   ("Samsung", ["samsung"]),
   ("SK Hynix", ["sk hynix", "hynix"]),
   ("Micron", ["micron"])]

/-- `COLOR_KEYWORDS` (src/src/parser.py lines 70-76). -/
def COLOR_KEYWORDS : List (String × List String) :=
  [("Schwarz", ["schwarz", "black"]),
   ("Weiß", ["weiß", "white", "weiss"]),
   ("RGB", ["rgb", "led"]),
   ("Silber", ["silber", "silver"]),
   ("Grau", ["grau", "grey", "gray"])]

/-- The inner loop of `extract_model_number`: first pattern of the list that
matches anywhere in the text, returning `group(0)`. -/
def findFirstPat : List (List (RTok × Bool)) → List Char → Option (List Char)
  | [], _ => none
  | p :: ps, cs =>
    match reSearch p cs with
    | some r => some r.1
    | none => findFirstPat ps cs

/-- The outer loop of `extract_model_number` over the pattern table: first
manufacturer (in table order) one of whose patterns matches. -/
def findModel : List (String × List (List (RTok × Bool))) → List Char →
    Option (String × String)
  | [], _ => none
  | (manu, pats) :: restTable, cs =>
    match findFirstPat pats cs with
    | some g0 => some (String.mk g0, manu)
    | none => findModel restTable cs

/-- `RAMParser.extract_model_number` (src/src/parser.py lines 82-102):
searches the uppercased text against `MODEL_PATTERNS` and returns
`(model_number, manufacturer)` from the first match, `None` otherwise. -/
def extract_model_number (text : String) : Option (String × String) :=
  findModel MODEL_PATTERNS (pyUpper text).data

/-- The loop shared by `extract_manufacturer` and `extract_color`: first
table entry one of whose keywords occurs in the lowercased text. -/
def findKeyword : List (String × List String) → String → Option String
  | [], _ => none
  | (name, kws) :: rest, textLower =>
    if kws.any (fun kw => strContains textLower kw) then some name
    else findKeyword rest textLower

/-- `RAMParser.extract_manufacturer` (src/src/parser.py lines 104-122), the
tier-2 keyword fallback. -/
def extract_manufacturer (text : String) : Option String :=
  findKeyword MANUFACTURER_KEYWORDS (pyLower text)

/-- `RAMParser.extract_color` (src/src/parser.py lines 199-217). -/
def extract_color (text : String) : Option String :=
  findKeyword COLOR_KEYWORDS (pyLower text)

/-- The first capacity pattern, Python `(\d+x?\d*)\s*GB`. -/
def capacityPat1 : List (RTok × Bool) :=
  [(.digitPlus, true), (.optLit "x", true), (.digitStar, true),
   (.wsStar, false), (.lit "GB", false)]

/-- The second capacity pattern, Python `(\d+x?\d*)\s*gb` (searched with
`re.IGNORECASE` like the first, hence redundant but kept). -/
def capacityPat2 : List (RTok × Bool) :=
  [(.digitPlus, true), (.optLit "x", true), (.digitStar, true),
   (.wsStar, false), (.lit "gb", false)]

/-- `RAMParser.extract_capacity` (src/src/parser.py lines 124-147): returns
`group(0).upper()` of the first pattern that matches. -/
def extract_capacity (text : String) : Option String :=
  match reSearch capacityPat1 text.data with
  | some r => some (pyUpper (String.mk r.1))
  | none =>
    match reSearch capacityPat2 text.data with
    | some r => some (pyUpper (String.mk r.1))
    | none => none

/-- The first speed pattern, Python `(\d{4,5})\s*(MHz|MT/s|MT/s)`. -/
def speedPat1 : List (RTok × Bool) :=
  [(.digitRange 4 5, true), (.wsStar, false),
   (.litAlt ["MHz", "MT/s", "MT/s"], false)]

/-- The second speed pattern, Python `(\d{4,5})\s*(mhz)`. -/
def speedPat2 : List (RTok × Bool) :=
  [(.digitRange 4 5, true), (.wsStar, false), (.lit "mhz", false)]

/-- `RAMParser.extract_speed` (src/src/parser.py lines 149-172): returns
`group(0)` of the first pattern that matches. -/
def extract_speed (text : String) : Option String :=
  match reSearch speedPat1 text.data with
  | some r => some (String.mk r.1)
  | none =>
    match reSearch speedPat2 text.data with
    | some r => some (String.mk r.1)
    | none => none

/-- The first latency pattern, Python `CL\s*(\d{2,3})`. -/
def latencyPat1 : List (RTok × Bool) :=
  [(.lit "CL", false), (.wsStar, false), (.digitRange 2 3, true)]

/-- The second latency pattern, Python `C(\d{2,3})`. -/
def latencyPat2 : List (RTok × Bool) :=
  [(.lit "C", false), (.digitRange 2 3, true)]

/-- `RAMParser.extract_latency` (src/src/parser.py lines 174-197): returns
`"CL" ++ group(1)` of the first pattern that matches. -/
def extract_latency (text : String) : Option String :=
  match reSearch latencyPat1 text.data with
  | some r => some ("CL" ++ String.mk r.2)
  | none =>
    match reSearch latencyPat2 text.data with
    | some r => some ("CL" ++ String.mk r.2)
    | none => none

/-- `has_ovp` keyword list (src/src/parser.py line 233). -/
def ovp_keywords : List String :=
  ["ovp", "originalverpackung", "original verpackt", "versiegelt",
   "unverschweißt"]

/-- `has_invoice` keyword list (src/src/parser.py line 237). -/
def invoice_keywords : List String :=
  ["rechnung", "kassenbon", "beleg", "garantie", "kaufbeleg"]

/-- Positive shipping keyword list (src/src/parser.py line 241). -/
def shipping_keywords : List String :=
  ["versand möglich", "versandkosten", "dhl", "porto", "versand"]

/-- Negative shipping keyword list (src/src/parser.py line 242). -/
def no_shipping_keywords : List String :=
  ["nur abholung", "kein versand", "abholung nur"]

structure Metadata where
  has_ovp : Bool
  has_invoice : Bool
  shipping_available : Bool
deriving Repr, DecidableEq

/-- `RAMParser.extract_metadata` (src/src/parser.py lines 219-253):
keyword-presence flags over the lowercased text; shipping requires a
positive keyword and no negative keyword. -/
def extract_metadata (text : String) : Metadata :=
  let textLower := pyLower text
  let has_ovp := ovp_keywords.any (fun k => strContains textLower k)
  let has_invoice := invoice_keywords.any (fun k => strContains textLower k)
  let has_shipping_keywords := shipping_keywords.any (fun k => strContains textLower k)
  let has_no_shipping_keywords := no_shipping_keywords.any (fun k => strContains textLower k)
  ⟨has_ovp, has_invoice, has_shipping_keywords && !has_no_shipping_keywords⟩

/-- The `is_ddr5` patterns (src/src/utils.py lines 51-56): `ddr5`,
`ddr\s*5`, `ddr-5`, `d5`. -/
def ddr5Pats : List (List (RTok × Bool)) :=
  [[(.lit "ddr5", false)],
   [(.lit "ddr", false), (.wsStar, false), (.lit "5", false)],
   [(.lit "ddr-5", false)],
   [(.lit "d5", false)]]

/-- `is_ddr5` (src/src/utils.py lines 38-60): any of the DDR5 spellings
occurs in the lowercased combined title and description. -/
def is_ddr5 (title description : String) : Bool :=
  let text := pyLower (title ++ " " ++ description)
  ddr5Pats.any (fun p => (reSearch p text.data).isSome)

/-- The `parse_relative_date` patterns (src/src/utils.py lines 79-86), each
with its unit in minutes (`timedelta(minutes=1)` through
`timedelta(days=365)`). -/
def relPats : List (List (RTok × Bool) × ℤ) :=
  [([(.lit "vor", false), (.wsPlus, false), (.digitPlus, true),
     (.wsPlus, false), (.lit "minute", false), (.optLit "n", false)], 1),
   ([(.lit "vor", false), (.wsPlus, false), (.digitPlus, true),
     (.wsPlus, false), (.lit "stunde", false), (.optLit "n", false)], 60),
   ([(.lit "vor", false), (.wsPlus, false), (.digitPlus, true),
     (.wsPlus, false), (.lit "tage", false), (.optLit "n", false)], 1440),
   ([(.lit "vor", false), (.wsPlus, false), (.digitPlus, true),
     (.wsPlus, false), (.lit "woche", false), (.optLit "n", false)], 10080),
   ([(.lit "vor", false), (.wsPlus, false), (.digitPlus, true),
     (.wsPlus, false), (.lit "monate", false), (.optLit "n", false)], 43200),
   ([(.lit "vor", false), (.wsPlus, false), (.digitPlus, true),
     (.wsPlus, false), (.lit "jahre", false), (.optLit "n", false)], 525600)]

/-- Python `int` on a run of digits. -/
def digitsToNat (cs : List Char) : Nat :=
  cs.foldl (fun n c => n * 10 + (c.toNat - 48)) 0

/-- The loop of `parse_relative_date` over `relPats`: first matching
pattern yields `now - unit * amount`. -/
def findRel : List (List (RTok × Bool) × ℤ) → List Char → ℤ → Option ℤ
  | [], _, _ => none
  | (p, unit) :: rest, cs, now =>
    match reSearch p cs with
    | some r => some (now - unit * (digitsToNat r.2 : ℤ))
    | none => findRel rest cs now

/-- `parse_relative_date` (src/src/utils.py lines 63-98), with
`datetime.now()` as the explicit `now` parameter in minutes: `None` for an
empty text, the matched relative offset otherwise, falling back to "today"
(`now`). -/
def parse_relative_date (now : ℤ) (text : String) : Option ℤ :=
  if text.data.isEmpty then none
  else
    let textLower := pyStrip (pyLower text)
    match findRel relPats textLower.data now with
    | some t => some t
    | none => some now

end RAMParser

/-- `RAMSpecifications` (src/src/models.py lines 10-23): all fields optional
strings defaulting to absent. -/
structure RAMSpecifications where
  model_number : Option String
  manufacturer : Option String
  capacity : Option String
  speed : Option String
  latency : Option String
  color : Option String
deriving Repr, DecidableEq

/-- `Listing` (src/src/models.py lines 26-46). -/
structure Listing where
  ad_id : String
  title : String
  price : ℚ
  location : String
  url : String
  posted_date : String
  posted_timestamp : Option ℤ
  has_ovp : Bool
  has_invoice : Bool
  shipping_available : Bool
  specs : RAMSpecifications
  raw_description : String
  priority_score : ℤ
deriving Repr, DecidableEq

/-- Python truthiness of an optional string field (`if listing.specs.x:`):
present and non-empty. -/
def pyTruthy (o : Option String) : Bool :=
  match o with
  | none => false
  | some s => !s.data.isEmpty

/-- The damage keyword list of `calculate_priority_score`
(src/src/utils.py line 144). -/
def defectKeywords : List String := ["defekt", "kaputt", "beschädigt", "schaden"]

/-- `calculate_priority_score` (src/src/utils.py lines 101-147): the
additive point table applied in source order, clamped to zero at the end. -/
def calculate_priority_score (listing : Listing) : ℤ :=
  let score : ℤ := 0
  let score := if pyTruthy listing.specs.model_number then score + 5 else score
  let score := if listing.has_ovp then score + 3 else score
  let score := if listing.has_invoice then score + 3 else score
  let score := if listing.shipping_available then score + 2 else score
  let score := if pyTruthy listing.specs.manufacturer &&
      pyTruthy listing.specs.capacity && pyTruthy listing.specs.speed &&
      pyTruthy listing.specs.latency then score + 2 else score
  let score := if pyTruthy listing.specs.color then score + 1 else score
  let text := pyLower (listing.title ++ " " ++ listing.raw_description)
  let score := if defectKeywords.any (fun k => strContains text k) then score - 2
    else score
  max 0 score

namespace RAMParser

/-- `RAMParser.parse_listing` (src/src/parser.py lines 255-343), with
`datetime.now()` as the explicit `now` parameter: `None` when the DDR5
marker is missing, otherwise the listing with tier-1 model extraction, the
tier-2 fallbacks, metadata flags, the parsed posted timestamp and the
computed priority score. -/
def parse_listing (now : ℤ) (ad_id title description : String) (price : ℚ)
    (location url posted_date : String) : Option Listing :=
  let full_text := pyStrip (title ++ " " ++ description)
  if !is_ddr5 title description then none
  else
    let specs : RAMSpecifications :=
      match extract_model_number full_text with
      | some mm =>
        { model_number := some mm.1, manufacturer := some mm.2,
          capacity := extract_capacity full_text,
          speed := extract_speed full_text,
          latency := extract_latency full_text,
          color := extract_color full_text }
      | none =>
        { model_number := none,
          manufacturer := extract_manufacturer full_text,
          capacity := extract_capacity full_text,
          speed := extract_speed full_text,
          latency := extract_latency full_text,
          color := extract_color full_text }
    let metadata := extract_metadata full_text
    let pt :=
      match parse_relative_date now posted_date with
      | some t => some t
      | none => parse_relative_date now title
    let pt2 :=
      match pt with
      | some t => some t
      | none => parse_relative_date now "vor 0 Stunden"
    let l0 : Listing :=
      { ad_id := ad_id, title := title, price := price, location := location,
        url := url, posted_date := posted_date, posted_timestamp := pt2,
        has_ovp := metadata.has_ovp, has_invoice := metadata.has_invoice,
        shipping_available := metadata.shipping_available, specs := specs,
        raw_description := description, priority_score := 0 }
    some { l0 with priority_score := calculate_priority_score l0 }

end RAMParser

/-- A default listing used only as the `Option.getD` fallback below. -/
def emptyListing : Listing :=
  { ad_id := "", title := "", price := 0, location := "", url := "",
    posted_date := "", posted_timestamp := none, has_ovp := false,
    has_invoice := false, shipping_available := false,
    specs := ⟨none, none, none, none, none, none⟩, raw_description := "",
    priority_score := 0 }

/-- The concrete listing `parse_listing` produces from title "d5 CMK1A". -/
def c5Listing : Listing :=
  (RAMParser.parse_listing 0 "a1" "d5 CMK1A" "" 1 "" "" "").getD emptyListing

/-! ## Helper lemmas -/

theorem mark_as_seen_countP (rows : List Database.SeenRow) (adId title : String)
    (price : Option ℚ) (link location posted_time : Option String) (now : ℤ) :
    (Database.mark_as_seen rows adId title price link location posted_time
      now).countP (fun r => r.ad_id == adId) = 1 := by
  unfold Database.mark_as_seen
  rw [List.countP_append]
  have h0 : (rows.filter (fun r => r.ad_id ≠ adId)).countP
      (fun r => r.ad_id == adId) = 0 := by
    rw [List.countP_eq_zero]
    intro a ha
    rw [List.mem_filter] at ha
    simpa using ha.2
  simp [h0, List.countP_cons]

theorem mark_as_seen_not_new (rows : List Database.SeenRow) (adId title : String)
    (price : Option ℚ) (link location posted_time : Option String) (now : ℤ) :
    Database.is_new_ad
      (.ok (Database.mark_as_seen rows adId title price link location
        posted_time now)) adId = false := by
  unfold Database.is_new_ad Database.selectByAdId Database.mark_as_seen
  rw [Bool.eq_false_iff, Ne, Option.isNone_iff_eq_none, List.find?_eq_none]
  intro h
  exact absurd (h _ (List.mem_append_right _ (List.mem_singleton_self _)))
    (by simp)

theorem getNewAds_cons (now : ℤ) (rows : List Database.SeenRow) (ad : Bot.Ad)
    (rest : List Bot.Ad) :
    Bot.getNewAds now rows (ad :: rest) =
      if Bot.idTruthy ad then
        if Database.is_new_ad (.ok rows) (ad.id.getD "") then
          ((ad :: (Bot.getNewAds now
              (Database.mark_as_seen rows (ad.id.getD "") (ad.title.getD "")
                ad.price ad.link ad.location ad.posted_time now) rest).1),
            (Bot.getNewAds now
              (Database.mark_as_seen rows (ad.id.getD "") (ad.title.getD "")
                ad.price ad.link ad.location ad.posted_time now) rest).2)
        else Bot.getNewAds now rows rest
      else Bot.getNewAds now rows rest := rfl

theorem getNewAds_eq_filter (now : ℤ) (ads : List Bot.Ad) :
    ∀ rows : List Database.SeenRow,
      Bot.getNewAds now rows ads = Bot.getNewAds now rows (ads.filter Bot.idTruthy) := by
  induction ads with
  | nil => intro rows; rfl
  | cons ad rest ih =>
    intro rows
    by_cases ht : Bot.idTruthy ad
    · rw [List.filter_cons_of_pos ht, getNewAds_cons, getNewAds_cons,
        if_pos ht, if_pos ht]
      by_cases hn : Database.is_new_ad (.ok rows) (ad.id.getD "") = true
      · rw [if_pos hn, if_pos hn, ih]
      · rw [if_neg hn, if_neg hn, ih]
    · rw [List.filter_cons_of_neg (by simpa using ht), getNewAds_cons,
        if_neg ht, ih]

theorem getNewAds_mem_truthy (now : ℤ) (ads : List Bot.Ad) :
    ∀ rows : List Database.SeenRow, ∀ ad ∈ (Bot.getNewAds now rows ads).1,
      Bot.idTruthy ad = true := by
  induction ads with
  | nil => intro rows ad h; simp [Bot.getNewAds] at h
  | cons a rest ih =>
    intro rows ad h
    rw [getNewAds_cons] at h
    by_cases ht : Bot.idTruthy a
    · rw [if_pos ht] at h
      by_cases hn : Database.is_new_ad (.ok rows) (a.id.getD "") = true
      · rw [if_pos hn] at h
        rcases List.mem_cons.mp h with rfl | hm
        · exact ht
        · exact ih _ ad hm
      · rw [if_neg hn] at h
        exact ih _ ad h
    · rw [if_neg ht] at h
      exact ih _ ad h

/-! ## Claims about the persistence store -/

/-- Claim C1 (code bug): the spec requires dedup to be scoped per search, so
that an ad recorded under one search is still "new" for another; but
`seen_ads` keys on `ad_id` alone and `is_new_ad` takes no scope argument, so
after `mark_as_seen_with_search` records ad "ad1" under search 1, the probe
any other search would issue — `is_new_ad "ad1"` — already returns `false`. -/
theorem C1_dedup_not_scoped :
    OldDatabase.is_new_ad
      (.ok (OldDatabase.mark_as_seen_with_search [] "ad1" 1 "RAM" none none
        none none none none none 0)) "ad1" = false := by
  rfl

/-- Claim C2 (counterexample): deleting search 1 as non-owner "bob" returns
`False`, yet the seen-ads row scoped to search 1 is deleted anyway — the
store is not left unchanged as the claim states. -/
theorem C2_counterexample :
    (OldDatabase.delete_search c2State 1 "bob").1 = false ∧
    (OldDatabase.delete_search c2State 1 "bob").2.seen_ads = [] ∧
    c2State.seen_ads ≠ [] := by
  refine ⟨rfl, rfl, by simp [c2State]⟩

/-- Claim C2 (amended): `delete_search` returns `True` exactly when a search
with the given id is owned by the caller, and then removes that search row;
but the `seen_ads` rows scoped to the search id are deleted unconditionally,
before the ownership check — on a mismatch the searches table alone is left
unchanged. -/
theorem C2_delete_search_characterization :
    ∀ (st : OldDatabase.State) (searchId : ℤ) (userId : String),
      ((OldDatabase.delete_search st searchId userId).1 = true ↔
        ∃ s ∈ st.searches, s.search_id = searchId ∧ s.user_id = userId) ∧
      (∀ r : OldDatabase.OldSeenRow,
        r ∈ (OldDatabase.delete_search st searchId userId).2.seen_ads ↔
          r ∈ st.seen_ads ∧ r.search_id ≠ some searchId) ∧
      (∀ s : OldDatabase.Search,
        s ∈ (OldDatabase.delete_search st searchId userId).2.searches ↔
          s ∈ st.searches ∧ ¬(s.search_id = searchId ∧ s.user_id = userId)) ∧
      ((OldDatabase.delete_search st searchId userId).1 = false →
        (OldDatabase.delete_search st searchId userId).2.searches = st.searches) := by
  intro st searchId userId
  refine ⟨?_, ?_, ?_, ?_⟩
  · simp [OldDatabase.delete_search, List.countP_pos_iff]
  · intro r
    simp [OldDatabase.delete_search, List.mem_filter]
  · intro s
    simp only [OldDatabase.delete_search, List.mem_filter, Bool.not_eq_true',
      Bool.and_eq_false_iff, beq_eq_false_iff_ne, Ne, not_and]
    constructor
    · rintro ⟨hs, h⟩
      exact ⟨hs, by tauto⟩
    · rintro ⟨hs, h⟩
      exact ⟨hs, by tauto⟩
  · intro h
    simp only [OldDatabase.delete_search, decide_eq_false_iff_not, not_lt,
      Nat.le_zero, List.countP_eq_zero] at h
    simp only [OldDatabase.delete_search]
    rw [List.filter_eq_self]
    intro s hs
    have := h s hs
    simp only [Bool.and_eq_true, beq_iff_eq, not_and] at this
    simp only [Bool.not_eq_true', Bool.and_eq_false_iff, beq_eq_false_iff_ne, Ne]
    tauto

/-- Claim C3: the existence probe fails open — on a storage-layer error
`is_new_ad` returns `true` (treated as not yet seen), and on a successful
probe it returns `true` exactly when no stored `seen_ads` row carries the
id; this holds in both the single-search and the multi-search
implementation. -/
theorem C3_is_new_ad_fail_open :
    (∀ (e : DbError) (adId : String),
      Database.is_new_ad (.error e) adId = true) ∧
    (∀ (rows : List Database.SeenRow) (adId : String),
      (Database.is_new_ad (.ok rows) adId = true ↔ ∀ r ∈ rows, r.ad_id ≠ adId)) ∧
    (∀ (e : DbError) (adId : String),
      OldDatabase.is_new_ad (.error e) adId = true) ∧
    (∀ (rows : List OldDatabase.OldSeenRow) (adId : String),
      (OldDatabase.is_new_ad (.ok rows) adId = true ↔
        ∀ r ∈ rows, r.ad_id ≠ adId)) := by
  refine ⟨fun e adId => rfl, ?_, fun e adId => rfl, ?_⟩
  · intro rows adId
    simp [Database.is_new_ad, Database.selectByAdId, Option.isNone_iff_eq_none,
      List.find?_eq_none]
  · intro rows adId
    simp [OldDatabase.is_new_ad, Option.isNone_iff_eq_none, List.find?_eq_none]

/-- Claim C9: marking the same ad twice leaves exactly one `seen_ads` row for
that id (`INSERT OR REPLACE` overwrites), and after either call `is_new_ad`
on a failure-free store returns `false`. -/
theorem C9_mark_as_seen_idempotent :
    ∀ (rows : List Database.SeenRow) (adId t1 t2 : String) (p1 p2 : Option ℚ)
      (l1 loc1 pt1 l2 loc2 pt2 : Option String) (n1 n2 : ℤ),
      ((Database.mark_as_seen (Database.mark_as_seen rows adId t1 p1 l1 loc1 pt1 n1)
          adId t2 p2 l2 loc2 pt2 n2).countP (fun r => r.ad_id == adId) = 1) ∧
      Database.is_new_ad
        (.ok (Database.mark_as_seen rows adId t1 p1 l1 loc1 pt1 n1)) adId = false ∧
      Database.is_new_ad
        (.ok (Database.mark_as_seen (Database.mark_as_seen rows adId t1 p1 l1 loc1 pt1 n1)
          adId t2 p2 l2 loc2 pt2 n2)) adId = false := by
  intro rows adId t1 t2 p1 p2 l1 loc1 pt1 l2 loc2 pt2 n1 n2
  exact ⟨mark_as_seen_countP _ _ _ _ _ _ _ _,
    mark_as_seen_not_new _ _ _ _ _ _ _ _,
    mark_as_seen_not_new _ _ _ _ _ _ _ _⟩

/-! ## Claims about the filter and dedup orchestrator -/

theorem priceExcluded_false_iff (pm pM : Option ℚ) (p : ℚ) :
    Bot.priceExcluded pm pM (some p) = false ↔
      (∀ m, pm = some m → m ≤ p) ∧ (∀ M, pM = some M → p ≤ M) := by
  unfold Bot.priceExcluded
  rw [Bool.or_eq_false_iff]
  constructor
  · rintro ⟨h1, h2⟩
    constructor
    · intro m hm
      rw [hm] at h1
      simpa [not_lt] using h1
    · intro M hM
      rw [hM] at h2
      simpa [not_lt] using h2
  · rintro ⟨h1, h2⟩
    constructor
    · cases pm with
      | none => rfl
      | some m => simpa [not_lt] using h1 m rfl
    · cases pM with
      | none => rfl
      | some M => simpa [not_lt] using h2 M rfl

theorem bot_filter_price_boundary (pm pM : Option ℚ) (excl : List String)
    (ad : Bot.Ad) (hg : ad.is_gesuch = false)
    (hk : Bot.keywordExcluded excl (ad.title.getD "") = false) :
    (ad.price = none → Bot.filterAds pm pM excl [ad] = [ad]) ∧
    (∀ p : ℚ, ad.price = some p →
      (Bot.filterAds pm pM excl [ad] = [ad] ↔
        (∀ m, pm = some m → m ≤ p) ∧ (∀ M, pM = some M → p ≤ M))) := by
  constructor
  · intro hp
    unfold Bot.filterAds
    rw [if_neg (by simp [Bot.priceExcluded, hp]), if_neg (by simp [hg]),
      if_neg (by simp [hk])]
    exact rfl
  · intro p hp
    have hstep : Bot.filterAds pm pM excl [ad] =
        if Bot.priceExcluded pm pM ad.price then [] else [ad] := by
      unfold Bot.filterAds
      by_cases hpe : Bot.priceExcluded pm pM ad.price
      · rw [if_pos hpe, if_pos hpe]; rfl
      · rw [if_neg hpe, if_neg hpe, if_neg (by simp [hg]),
          if_neg (by simp [hk])]
        exact rfl
    rw [hstep, hp]
    constructor
    · intro hkeep
      have hpe : Bot.priceExcluded pm pM (some p) = false := by
        by_contra hc
        rw [Bool.not_eq_false] at hc
        rw [if_pos hc] at hkeep
        exact List.cons_ne_nil _ _ hkeep.symm
      exact (priceExcluded_false_iff pm pM p).mp hpe
    · intro hbounds
      rw [if_neg (by simp [(priceExcluded_false_iff pm pM p).mpr hbounds])]

theorem old_filter_price_boundary (pm pM : Option ℚ) (excl : List String)
    (pref : String) (ad : OldBot.Ad) (hg : ad.is_gesuch = false)
    (hk : Bot.keywordExcluded excl (ad.title.getD "") = false)
    (hs : OldBot.shippingExcluded pref (ad.shipping_type.getD "") = false) :
    (ad.price = none → OldBot.filterAds pm pM excl pref [ad] = [ad]) ∧
    (∀ p : ℚ, ad.price = some p →
      (OldBot.filterAds pm pM excl pref [ad] = [ad] ↔
        (∀ m, pm = some m → m ≤ p) ∧ (∀ M, pM = some M → p ≤ M))) := by
  constructor
  · intro hp
    unfold OldBot.filterAds
    rw [if_neg (by simp [Bot.priceExcluded, hp]), if_neg (by simp [hg]),
      if_neg (by simp [hk]), if_neg (by simp [hs])]
    exact rfl
  · intro p hp
    have hstep : OldBot.filterAds pm pM excl pref [ad] =
        if Bot.priceExcluded pm pM ad.price then [] else [ad] := by
      unfold OldBot.filterAds
      by_cases hpe : Bot.priceExcluded pm pM ad.price
      · rw [if_pos hpe, if_pos hpe]; rfl
      · rw [if_neg hpe, if_neg hpe, if_neg (by simp [hg]),
          if_neg (by simp [hk]), if_neg (by simp [hs])]
        exact rfl
    rw [hstep, hp]
    constructor
    · intro hkeep
      have hpe : Bot.priceExcluded pm pM (some p) = false := by
        by_contra hc
        rw [Bool.not_eq_false] at hc
        rw [if_pos hc] at hkeep
        exact List.cons_ne_nil _ _ hkeep.symm
      exact (priceExcluded_false_iff pm pM p).mp hpe
    · intro hbounds
      rw [if_neg (by simp [(priceExcluded_false_iff pm pM p).mpr hbounds])]

theorem bot_filter_priceExcluded_not_mem (pm pM : Option ℚ)
    (excl : List String) (ads : List Bot.Ad) (ad : Bot.Ad)
    (hpe : Bot.priceExcluded pm pM ad.price = true) :
    ad ∉ Bot.filterAds pm pM excl ads := by
  induction ads with
  | nil => simp [Bot.filterAds]
  | cons a rest ih =>
    unfold Bot.filterAds
    by_cases h1 : Bot.priceExcluded pm pM a.price
    · rw [if_pos h1]; exact ih
    · rw [if_neg h1]
      by_cases h2 : a.is_gesuch
      · rw [if_pos h2]; exact ih
      · rw [if_neg h2]
        by_cases h3 : Bot.keywordExcluded excl (a.title.getD "")
        · rw [if_pos h3]; exact ih
        · rw [if_neg h3]
          intro hmem
          rcases List.mem_cons.mp hmem with rfl | hm
          · exact h1 hpe
          · exact ih hm

theorem old_filter_priceExcluded_not_mem (pm pM : Option ℚ)
    (excl : List String) (pref : String) (ads : List OldBot.Ad)
    (ad : OldBot.Ad) (hpe : Bot.priceExcluded pm pM ad.price = true) :
    ad ∉ OldBot.filterAds pm pM excl pref ads := by
  induction ads with
  | nil => simp [OldBot.filterAds]
  | cons a rest ih =>
    unfold OldBot.filterAds
    by_cases h1 : Bot.priceExcluded pm pM a.price
    · rw [if_pos h1]; exact ih
    · rw [if_neg h1]
      by_cases h2 : a.is_gesuch
      · rw [if_pos h2]; exact ih
      · rw [if_neg h2]
        by_cases h3 : Bot.keywordExcluded excl (a.title.getD "")
        · rw [if_pos h3]; exact ih
        · rw [if_neg h3]
          by_cases h4 : OldBot.shippingExcluded pref (a.shipping_type.getD "")
          · rw [if_pos h4]; exact ih
          · rw [if_neg h4]
            intro hmem
            rcases List.mem_cons.mp hmem with rfl | hm
            · exact h1 hpe
            · exact ih hm

/-- Claim C6: in both filter implementations, with a present price a
non-request, non-keyword-excluded (and, in the multi-search bot,
shipping-acceptable) ad is kept exactly when every configured bound is
respected inclusively, and an absent price never excludes an ad via the
price filter. -/
theorem C6_price_filter_boundary :
    ∀ (pm pM : Option ℚ) (excl : List String) (pref : String) (ad : Bot.Ad)
      (oldAd : OldBot.Ad),
      ad.is_gesuch = false →
      Bot.keywordExcluded excl (ad.title.getD "") = false →
      oldAd.is_gesuch = false →
      Bot.keywordExcluded excl (oldAd.title.getD "") = false →
      OldBot.shippingExcluded pref (oldAd.shipping_type.getD "") = false →
      ((ad.price = none → Bot.filterAds pm pM excl [ad] = [ad]) ∧
       (∀ p : ℚ, ad.price = some p →
         (Bot.filterAds pm pM excl [ad] = [ad] ↔
           (∀ m, pm = some m → m ≤ p) ∧ (∀ M, pM = some M → p ≤ M))) ∧
       (oldAd.price = none → OldBot.filterAds pm pM excl pref [oldAd] = [oldAd]) ∧
       (∀ p : ℚ, oldAd.price = some p →
         (OldBot.filterAds pm pM excl pref [oldAd] = [oldAd] ↔
           (∀ m, pm = some m → m ≤ p) ∧ (∀ M, pM = some M → p ≤ M))) ∧
       (∀ (ads : List Bot.Ad) (p m : ℚ), ad.price = some p → pm = some m →
         p < m → ad ∉ Bot.filterAds pm pM excl ads) ∧
       (∀ (ads : List Bot.Ad) (p M : ℚ), ad.price = some p → pM = some M →
         M < p → ad ∉ Bot.filterAds pm pM excl ads) ∧
       (∀ (ads : List OldBot.Ad) (p m : ℚ), oldAd.price = some p →
         pm = some m → p < m → oldAd ∉ OldBot.filterAds pm pM excl pref ads) ∧
       (∀ (ads : List OldBot.Ad) (p M : ℚ), oldAd.price = some p →
         pM = some M → M < p → oldAd ∉ OldBot.filterAds pm pM excl pref ads)) := by
  intro pm pM excl pref ad oldAd hg hk hog hok hos
  obtain ⟨n1, n2⟩ := bot_filter_price_boundary pm pM excl ad hg hk
  obtain ⟨o1, o2⟩ := old_filter_price_boundary pm pM excl pref oldAd hog hok hos
  refine ⟨n1, n2, o1, o2, ?_, ?_, ?_, ?_⟩
  · intro ads p m hp hm hlt
    exact bot_filter_priceExcluded_not_mem pm pM excl ads ad
      (by rw [hp]; unfold Bot.priceExcluded; rw [hm]; simp [hlt])
  · intro ads p M hp hM hlt
    refine bot_filter_priceExcluded_not_mem pm pM excl ads ad ?_
    rw [hp]
    unfold Bot.priceExcluded
    rw [hM]
    cases pm <;> simp [hlt]
  · intro ads p m hp hm hlt
    exact old_filter_priceExcluded_not_mem pm pM excl pref ads oldAd
      (by rw [hp]; unfold Bot.priceExcluded; rw [hm]; simp [hlt])
  · intro ads p M hp hM hlt
    refine old_filter_priceExcluded_not_mem pm pM excl pref ads oldAd ?_
    rw [hp]
    unfold Bot.priceExcluded
    rw [hM]
    cases pm <;> simp [hlt]

/-- Claim C6, witness: with bounds `[10, 20]` an ad priced exactly at the
lower bound is kept by the single-search filter, and one priced exactly at
the upper bound is kept by the multi-search filter. -/
theorem C6_witness :
    Bot.filterAds (some 10) (some 20) [] [c6Ad] = [c6Ad] ∧
    OldBot.filterAds (some 10) (some 20) [] "both" [c6OldAd] = [c6OldAd] := by
  have h := C6_price_filter_boundary (some 10) (some 20) [] "both" c6Ad c6OldAd
    rfl rfl rfl rfl rfl
  refine ⟨(h.2.1 10 rfl).mpr ⟨?_, ?_⟩, (h.2.2.2.1 20 rfl).mpr ⟨?_, ?_⟩⟩
  · intro m hm; cases hm; norm_num
  · intro M hM; cases hM; norm_num
  · intro m hm; cases hm; norm_num
  · intro M hM; cases hM; norm_num

theorem bot_filter_gesuch_not_mem (pm pM : Option ℚ) (excl : List String)
    (ads : List Bot.Ad) (ad : Bot.Ad) (hg : ad.is_gesuch = true) :
    ad ∉ Bot.filterAds pm pM excl ads := by
  induction ads with
  | nil => simp [Bot.filterAds]
  | cons a rest ih =>
    unfold Bot.filterAds
    by_cases h1 : Bot.priceExcluded pm pM a.price
    · rw [if_pos h1]; exact ih
    · rw [if_neg h1]
      by_cases h2 : a.is_gesuch
      · rw [if_pos h2]; exact ih
      · rw [if_neg h2]
        by_cases h3 : Bot.keywordExcluded excl (a.title.getD "")
        · rw [if_pos h3]; exact ih
        · rw [if_neg h3]
          intro hmem
          rcases List.mem_cons.mp hmem with rfl | hm
          · exact h2 hg
          · exact ih hm

theorem old_filter_gesuch_not_mem (pm pM : Option ℚ) (excl : List String)
    (pref : String) (ads : List OldBot.Ad) (ad : OldBot.Ad)
    (hg : ad.is_gesuch = true) :
    ad ∉ OldBot.filterAds pm pM excl pref ads := by
  induction ads with
  | nil => simp [OldBot.filterAds]
  | cons a rest ih =>
    unfold OldBot.filterAds
    by_cases h1 : Bot.priceExcluded pm pM a.price
    · rw [if_pos h1]; exact ih
    · rw [if_neg h1]
      by_cases h2 : a.is_gesuch
      · rw [if_pos h2]; exact ih
      · rw [if_neg h2]
        by_cases h3 : Bot.keywordExcluded excl (a.title.getD "")
        · rw [if_pos h3]; exact ih
        · rw [if_neg h3]
          by_cases h4 : OldBot.shippingExcluded pref (a.shipping_type.getD "")
          · rw [if_pos h4]; exact ih
          · rw [if_neg h4]
            intro hmem
            rcases List.mem_cons.mp hmem with rfl | hm
            · exact h2 hg
            · exact ih hm

/-- Claim C7: an ad flagged as a request (`is_gesuch`) never appears in the
output of either filter implementation, whatever the configured price
bounds, exclude keywords and shipping preference. -/
theorem C7_gesuch_always_excluded :
    ∀ (pm pM : Option ℚ) (excl : List String) (pref : String)
      (ads : List Bot.Ad) (ad : Bot.Ad) (oldAds : List OldBot.Ad)
      (oldAd : OldBot.Ad),
      ad.is_gesuch = true → oldAd.is_gesuch = true →
      ad ∉ Bot.filterAds pm pM excl ads ∧
      oldAd ∉ OldBot.filterAds pm pM excl pref oldAds := by
  intro pm pM excl pref ads ad oldAds oldAd hg hog
  exact ⟨bot_filter_gesuch_not_mem pm pM excl ads ad hg,
    old_filter_gesuch_not_mem pm pM excl pref oldAds oldAd hog⟩

/-- Claim C7, witness: with no filters configured at all, a concrete request
ad is still excluded by both implementations. -/
theorem C7_witness :
    c7Ad ∉ Bot.filterAds none none [] [c7Ad] ∧
    c7OldAd ∉ OldBot.filterAds none none [] "both" [c7OldAd] :=
  C7_gesuch_always_excluded none none [] "both" [c7Ad] c7Ad [c7OldAd] c7OldAd
    rfl rfl

theorem old_getNewAds_cons (now searchId : ℤ) (rows : List OldDatabase.OldSeenRow)
    (ad : OldBot.Ad) (rest : List OldBot.Ad) :
    OldBot.getNewAds now searchId rows (ad :: rest) =
      if OldBot.idTruthy ad then
        if OldDatabase.is_new_ad (.ok rows) (ad.id.getD "") then
          ((ad :: (OldBot.getNewAds now searchId
              (OldDatabase.mark_as_seen_with_search rows (ad.id.getD "") searchId
                (ad.title.getD "") ad.price ad.link ad.location ad.shipping_type
                ad.posted_time none none now) rest).1),
            (OldBot.getNewAds now searchId
              (OldDatabase.mark_as_seen_with_search rows (ad.id.getD "") searchId
                (ad.title.getD "") ad.price ad.link ad.location ad.shipping_type
                ad.posted_time none none now) rest).2)
        else OldBot.getNewAds now searchId rows rest
      else OldBot.getNewAds now searchId rows rest := rfl

theorem old_getNewAds_eq_filter (now searchId : ℤ) (ads : List OldBot.Ad) :
    ∀ rows : List OldDatabase.OldSeenRow,
      OldBot.getNewAds now searchId rows ads =
        OldBot.getNewAds now searchId rows (ads.filter OldBot.idTruthy) := by
  induction ads with
  | nil => intro rows; rfl
  | cons ad rest ih =>
    intro rows
    by_cases ht : OldBot.idTruthy ad
    · rw [List.filter_cons_of_pos ht, old_getNewAds_cons, old_getNewAds_cons,
        if_pos ht, if_pos ht]
      by_cases hn : OldDatabase.is_new_ad (.ok rows) (ad.id.getD "") = true
      · rw [if_pos hn, if_pos hn, ih]
      · rw [if_neg hn, if_neg hn, ih]
    · rw [List.filter_cons_of_neg (by simpa using ht), old_getNewAds_cons,
        if_neg ht, ih]

theorem old_getNewAds_mem_truthy (now searchId : ℤ) (ads : List OldBot.Ad) :
    ∀ rows : List OldDatabase.OldSeenRow,
      ∀ ad ∈ (OldBot.getNewAds now searchId rows ads).1,
        OldBot.idTruthy ad = true := by
  induction ads with
  | nil => intro rows ad h; simp [OldBot.getNewAds] at h
  | cons a rest ih =>
    intro rows ad h
    rw [old_getNewAds_cons] at h
    by_cases ht : OldBot.idTruthy a
    · rw [if_pos ht] at h
      by_cases hn : OldDatabase.is_new_ad (.ok rows) (a.id.getD "") = true
      · rw [if_pos hn] at h
        rcases List.mem_cons.mp h with rfl | hm
        · exact ht
        · exact ih _ ad hm
      · rw [if_neg hn] at h
        exact ih _ ad h
    · rw [if_neg ht] at h
      exact ih _ ad h

/-- Claim C10: in both implementations `_get_new_ads` silently skips every
ad whose id is missing or empty — running it equals running it on the list
with those ads filtered out (so they are neither returned nor recorded, and
the rest are processed in order), and every returned ad has a present,
non-empty id. -/
theorem C10_get_new_ads_skips_missing_ids :
    ∀ (now searchId : ℤ) (rows : List Database.SeenRow)
      (oldRows : List OldDatabase.OldSeenRow) (ads : List Bot.Ad)
      (oldAds : List OldBot.Ad),
      (Bot.getNewAds now rows ads =
        Bot.getNewAds now rows (ads.filter Bot.idTruthy)) ∧
      (∀ ad ∈ (Bot.getNewAds now rows ads).1, Bot.idTruthy ad = true) ∧
      (OldBot.getNewAds now searchId oldRows oldAds =
        OldBot.getNewAds now searchId oldRows (oldAds.filter OldBot.idTruthy)) ∧
      (∀ ad ∈ (OldBot.getNewAds now searchId oldRows oldAds).1,
        OldBot.idTruthy ad = true) := by
  intro now searchId rows oldRows ads oldAds
  exact ⟨getNewAds_eq_filter now ads rows, getNewAds_mem_truthy now ads rows,
    old_getNewAds_eq_filter now searchId oldAds oldRows,
    old_getNewAds_mem_truthy now searchId oldAds oldRows⟩

/-! ## Claims about the attribute parser and priority scorer -/

theorem findFirstPat_spec (cs : List Char) :
    ∀ (ps : List (List (RAMParser.RTok × Bool))) (g0 : List Char),
      RAMParser.findFirstPat ps cs = some g0 →
      ∃ p ∈ ps, ∃ g1, RAMParser.reSearch p cs = some (g0, g1) := by
  intro ps
  induction ps with
  | nil => intro g0 h; simp [RAMParser.findFirstPat] at h
  | cons p ps ih =>
    intro g0 h
    unfold RAMParser.findFirstPat at h
    cases hr : RAMParser.reSearch p cs with
    | some r =>
      rw [hr] at h
      injection h with h
      exact ⟨p, List.mem_cons_self p ps, r.2, by rw [hr, ← h]⟩
    | none =>
      rw [hr] at h
      obtain ⟨q, hq, g1, hg⟩ := ih g0 h
      exact ⟨q, List.mem_cons_of_mem p hq, g1, hg⟩

theorem findModel_spec (cs : List Char) :
    ∀ (table : List (String × List (List (RAMParser.RTok × Bool)))) (m mf : String),
      RAMParser.findModel table cs = some (m, mf) →
      ∃ pats, (mf, pats) ∈ table ∧ ∃ p ∈ pats, ∃ g1,
        RAMParser.reSearch p cs = some (m.data, g1) := by
  intro table
  induction table with
  | nil => intro m mf h; simp [RAMParser.findModel] at h
  | cons entry rest ih =>
    intro m mf h
    obtain ⟨manu, pats⟩ := entry
    unfold RAMParser.findModel at h
    cases hf : RAMParser.findFirstPat pats cs with
    | some g0 =>
      rw [hf] at h
      injection h with h
      have hm : m = String.mk g0 := (congrArg Prod.fst h).symm
      have hmf : mf = manu := (congrArg Prod.snd h).symm
      obtain ⟨q, hq, g1, hg⟩ := findFirstPat_spec cs pats g0 hf
      subst hm hmf
      exact ⟨pats, List.mem_cons_self _ _, q, hq, g1, hg⟩
    | none =>
      rw [hf] at h
      obtain ⟨pats2, hp, q, hq, g1, hg⟩ := ih m mf h
      exact ⟨pats2, List.mem_cons_of_mem _ hp, q, hq, g1, hg⟩

theorem parse_listing_specs (now : ℤ) (adId title description : String)
    (price : ℚ) (location url postedDate : String) (l : Listing)
    (h : RAMParser.parse_listing now adId title description price location url
      postedDate = some l) :
    (∀ mm, RAMParser.extract_model_number (pyStrip (title ++ " " ++ description)) =
        some mm →
      l.specs.model_number = some mm.1 ∧ l.specs.manufacturer = some mm.2) ∧
    (RAMParser.extract_model_number (pyStrip (title ++ " " ++ description)) = none →
      l.specs.model_number = none ∧
      l.specs.manufacturer =
        RAMParser.extract_manufacturer (pyStrip (title ++ " " ++ description))) := by
  unfold RAMParser.parse_listing at h
  by_cases hd : RAMParser.is_ddr5 title description
  · rw [if_neg (by simp [hd])] at h
    cases hm : RAMParser.extract_model_number (pyStrip (title ++ " " ++ description)) with
    | some mm =>
      rw [hm] at h
      injection h with h
      constructor
      · intro mm2 hmm2
        injection hmm2 with hmm2
        subst hmm2
        rw [← h]
        exact ⟨rfl, rfl⟩
      · intro hnone
        exact absurd hnone (by simp)
    | none =>
      rw [hm] at h
      injection h with h
      constructor
      · intro mm2 hmm2
        exact absurd hmm2 (by simp)
      · intro _
        rw [← h]
        exact ⟨rfl, rfl⟩
  · rw [if_pos (by simp [hd])] at h
    exact absurd h (by simp)

/-- Claim C5: when the parser returns a model number, the returned
manufacturer is exactly the manufacturer of the `MODEL_PATTERNS` entry one
of whose tier-1 patterns matched the model number in the uppercased text;
the tier-2 keyword fallback `extract_manufacturer` determines the
manufacturer only when no tier-1 pattern matched (model number absent). -/
theorem C5_tier1_manufacturer_consistency :
    ∀ (now : ℤ) (adId title description : String) (price : ℚ)
      (location url postedDate : String) (l : Listing),
      RAMParser.parse_listing now adId title description price location url
        postedDate = some l →
      ((∀ m, l.specs.model_number = some m →
          ∃ mf, l.specs.manufacturer = some mf ∧
            RAMParser.extract_model_number (pyStrip (title ++ " " ++ description)) =
              some (m, mf) ∧
            ∃ pats, (mf, pats) ∈ RAMParser.MODEL_PATTERNS ∧ ∃ p ∈ pats, ∃ g1,
              RAMParser.reSearch p
                (pyUpper (pyStrip (title ++ " " ++ description))).data =
                some (m.data, g1)) ∧
       (l.specs.model_number = none →
          l.specs.manufacturer =
            RAMParser.extract_manufacturer (pyStrip (title ++ " " ++ description)))) := by
  intro now adId title description price location url postedDate l h
  obtain ⟨hsome, hnone⟩ := parse_listing_specs now adId title description price
    location url postedDate l h
  constructor
  · intro m hm
    cases hx : RAMParser.extract_model_number (pyStrip (title ++ " " ++ description)) with
    | none =>
      rw [(hnone hx).1] at hm
      exact absurd hm (by simp)
    | some mm =>
      obtain ⟨m1, m2⟩ := mm
      obtain ⟨h1, h2⟩ := hsome (m1, m2) hx
      dsimp only at h1 h2
      rw [h1] at hm
      injection hm with hm
      obtain ⟨pats, hp, q, hq, g1, hg⟩ :=
        findModel_spec (pyUpper (pyStrip (title ++ " " ++ description))).data
          RAMParser.MODEL_PATTERNS m1 m2 hx
      subst hm
      exact ⟨m2, h2, rfl, pats, hp, q, hq, g1, hg⟩
  · intro hm
    cases hx : RAMParser.extract_model_number (pyStrip (title ++ " " ++ description)) with
    | none => exact (hnone hx).2
    | some mm =>
      rw [(hsome mm hx).1] at hm
      exact absurd hm (by simp)

/-- Claim C5, witness: parsing the title "d5 CMK1A" yields model number
"CMK1A" with manufacturer "Corsair", the Corsair entry of
`MODEL_PATTERNS` providing the matching pattern. -/
theorem C5_witness :
    ∃ mf, c5Listing.specs.manufacturer = some mf ∧
      RAMParser.extract_model_number (pyStrip ("d5 CMK1A" ++ " " ++ "")) =
        some ("CMK1A", mf) ∧
      ∃ pats, (mf, pats) ∈ RAMParser.MODEL_PATTERNS ∧ ∃ p ∈ pats, ∃ g1,
        RAMParser.reSearch p (pyUpper (pyStrip ("d5 CMK1A" ++ " " ++ ""))).data =
          some ("CMK1A".data, g1) :=
  (C5_tier1_manufacturer_consistency 0 "a1" "d5 CMK1A" "" 1 "" "" "" c5Listing
    (by decide)).1 "CMK1A" (by decide)

/-- Claim C4: the priority score equals the clamped additive point table —
`max 0` of `+5` model number, `+3` OVP, `+3` invoice, `+2` shipping, `+2`
all four specs, `+1` color, `-2` defect keyword — so it always lies between
0 and 16, and a listing with only the defect penalty scores exactly 0. -/
theorem C4_priority_score_formula :
    ∀ l : Listing,
      (calculate_priority_score l =
        max 0 ((if pyTruthy l.specs.model_number then (5 : ℤ) else 0) +
          (if l.has_ovp then 3 else 0) + (if l.has_invoice then 3 else 0) +
          (if l.shipping_available then 2 else 0) +
          (if pyTruthy l.specs.manufacturer && pyTruthy l.specs.capacity &&
              pyTruthy l.specs.speed && pyTruthy l.specs.latency then 2 else 0) +
          (if pyTruthy l.specs.color then 1 else 0) -
          (if defectKeywords.any (fun k =>
              strContains (pyLower (l.title ++ " " ++ l.raw_description)) k)
            then 2 else 0))) ∧
      0 ≤ calculate_priority_score l ∧ calculate_priority_score l ≤ 16 ∧
      (pyTruthy l.specs.model_number = false → l.has_ovp = false →
        l.has_invoice = false → l.shipping_available = false →
        (pyTruthy l.specs.manufacturer && pyTruthy l.specs.capacity &&
          pyTruthy l.specs.speed && pyTruthy l.specs.latency) = false →
        pyTruthy l.specs.color = false →
        defectKeywords.any (fun k =>
          strContains (pyLower (l.title ++ " " ++ l.raw_description)) k) = true →
        calculate_priority_score l = 0) := by
  intro l
  have key : ∀ (b1 b2 b3 b4 b5 b6 b7 : Bool),
      pyTruthy l.specs.model_number = b1 → l.has_ovp = b2 → l.has_invoice = b3 →
      l.shipping_available = b4 →
      (pyTruthy l.specs.manufacturer && pyTruthy l.specs.capacity &&
        pyTruthy l.specs.speed && pyTruthy l.specs.latency) = b5 →
      pyTruthy l.specs.color = b6 →
      defectKeywords.any (fun k =>
        strContains (pyLower (l.title ++ " " ++ l.raw_description)) k) = b7 →
      calculate_priority_score l =
        max 0 ((if b1 then (5 : ℤ) else 0) + (if b2 then 3 else 0) +
          (if b3 then 3 else 0) + (if b4 then 2 else 0) + (if b5 then 2 else 0) +
          (if b6 then 1 else 0) - (if b7 then 2 else 0)) := by
    intro b1 b2 b3 b4 b5 b6 b7 e1 e2 e3 e4 e5 e6 e7
    simp only [calculate_priority_score, e1, e2, e3, e4, e5, e6, e7]
    cases b1 <;> cases b2 <;> cases b3 <;> cases b4 <;> cases b5 <;>
      cases b6 <;> cases b7 <;> decide
  have hmain := key _ _ _ _ _ _ _ rfl rfl rfl rfl rfl rfl rfl
  refine ⟨hmain, ?_, ?_, ?_⟩
  · rw [hmain]
    cases pyTruthy l.specs.model_number <;> cases l.has_ovp <;>
      cases l.has_invoice <;> cases l.shipping_available <;>
      cases (pyTruthy l.specs.manufacturer && pyTruthy l.specs.capacity &&
        pyTruthy l.specs.speed && pyTruthy l.specs.latency) <;>
      cases pyTruthy l.specs.color <;>
      cases defectKeywords.any (fun k =>
        strContains (pyLower (l.title ++ " " ++ l.raw_description)) k) <;>
      decide
  · rw [hmain]
    cases pyTruthy l.specs.model_number <;> cases l.has_ovp <;>
      cases l.has_invoice <;> cases l.shipping_available <;>
      cases (pyTruthy l.specs.manufacturer && pyTruthy l.specs.capacity &&
        pyTruthy l.specs.speed && pyTruthy l.specs.latency) <;>
      cases pyTruthy l.specs.color <;>
      cases defectKeywords.any (fun k =>
        strContains (pyLower (l.title ++ " " ++ l.raw_description)) k) <;>
      decide
  · intro h1 h2 h3 h4 h5 h6 h7
    rw [key false false false false false false true h1 h2 h3 h4 h5 h6 h7]
    decide

/-- Claim C8: `shipping_available` holds exactly when some positive shipping
keyword occurs in the lowercased text and none of the negative keywords
"nur abholung", "kein versand", "abholung nur" occurs — a pickup-only
disclaimer overrides any positive mention. -/
theorem C8_shipping_positive_and_no_negative :
    ∀ text : String,
      ((RAMParser.extract_metadata text).shipping_available = true ↔
        ((∃ k ∈ RAMParser.shipping_keywords, strContains (pyLower text) k = true) ∧
         (∀ k ∈ ["nur abholung", "kein versand", "abholung nur"],
           strContains (pyLower text) k = false))) := by
  intro text
  simp only [RAMParser.extract_metadata, Bool.and_eq_true, Bool.not_eq_true',
    List.any_eq_true, List.any_eq_false, RAMParser.no_shipping_keywords]
  constructor
  · rintro ⟨⟨k, hk, hck⟩, hneg⟩
    exact ⟨⟨k, hk, hck⟩, fun k2 hk2 => Bool.not_eq_true _ ▸ by
      simpa using hneg k2 hk2⟩
  · rintro ⟨⟨k, hk, hck⟩, hneg⟩
    refine ⟨⟨k, hk, hck⟩, fun k2 hk2 => ?_⟩
    simpa using hneg k2 hk2
